import Mathlib

/-!
Shallow embedding of `ai_diffusion/ui/widget.py` (krita-ai-diffusion UI layer),
with the data-binding behaviour of its widgets translated into pure Lean
functions over explicit state.  Python floats are modelled as rationals `ℚ`
(all arithmetic appearing in the embedded code — multiplication or division by
100, truncation, clamping to a spin-box range — is exact on the rational values
the claims quantify over), Qt object references as natural-number identities,
and Qt signal emissions as explicit event lists returned alongside the new
state.
-/

namespace AiDiffusion

/-- Python `int()` applied to a rational: truncation toward zero. -/
def pyInt (q : ℚ) : ℤ := if 0 ≤ q then ⌊q⌋ else ⌈q⌉

/-- Python `round()` to an integer on a rational: nearest integer,
ties to the even neighbour (banker's rounding). -/
def pyRound (q : ℚ) : ℤ :=
  let f : ℤ := ⌊q⌋
  let r : ℚ := q - (f : ℚ)
  if r < 1/2 then f
  else if 1/2 < r then f + 1
  else if f % 2 = 0 then f else f + 1

/-- Qt's clamp of a requested value into a control's `[lo, hi]` range
(`QSpinBox.setValue` / `QSlider.setValue` bound the argument this way). -/
def clampI (lo hi v : ℤ) : ℤ := max lo (min hi v)

/-- Clamp for `QDoubleSpinBox` values. -/
def clampQ (lo hi v : ℚ) : ℚ := max lo (min hi v)

/-- A `QDoubleSpinBox` with two decimals (the Qt default) stores values
rounded to hundredths. -/
def round2 (q : ℚ) : ℚ := (pyRound (q * 100) : ℚ) / 100

namespace ControlWidget

/-- widget.py:151 — `control.strength_changed.connect(lambda x:
self.strength_spin.setValue(int(x * 100)))`, with the spin box clamping the
argument to its range `0..100` set at widget.py:145. -/
def strength_to_spin (x : ℚ) : ℤ := clampI 0 100 (pyInt (x * 100))

/-- widget.py:150 — `self.strength_spin.valueChanged.connect(lambda x:
setattr(control, "strength", x / 100))`. -/
def spin_to_strength (x : ℤ) : ℚ := (x : ℚ) / 100

/-- widget.py:146 — initial spin value `int(control.strength * 100)`,
clamped to the spin range `0..100`. -/
def strength_spin_init (strength : ℚ) : ℤ := clampI 0 100 (pyInt (strength * 100))

/-- widget.py:153-155 — `end_spin` has range `0.0..1.0`, Qt's default two
decimals, and is initialised with `setValue(control.end)`. -/
def end_spin_init (e : ℚ) : ℚ := clampQ 0 1 (round2 e)

/-- The forward conversion as the specification words it:
`forward = round(x*100)` (Python `round`).  Stated from the spec, for
comparison against the conversion the code actually performs. -/
def claimed_forward (x : ℚ) : ℤ := pyRound (x * 100)

end ControlWidget

namespace StrengthWidget

/-- An integer-valued Qt control (`QSlider` or `QSpinBox`): a value held in a
closed range `[lo, hi]`; `setValue` clamps its argument into the range and
emits `valueChanged` only on an actual change. -/
structure SpinState where
  lo : ℤ
  hi : ℤ
  val : ℤ
deriving DecidableEq, Repr

/-- The two controls of `StrengthWidget` (widget.py:612-636): `_slider` with
the range passed to the constructor (default `(1, 100)`) and `_input` with
range `1..100`. -/
structure State where
  slider : SpinState
  input : SpinState
deriving DecidableEq, Repr

mutual

/-- widget.py:638-643 `StrengthWidget.notify_changed(value)`: push `value`
into whichever control does not hold it yet, then emit `value_changed` with
`self.value = self._slider.value() / 100`.  Both controls' `valueChanged`
signals are connected to this slot (widget.py:625, 633), so a `setValue` that
actually changes a control re-enters it synchronously; the re-entry is
modelled with fuel, which is never exhausted on the runs the theorems are
about. -/
def notify_changed : Nat → State → ℤ → State × List ℚ
  | 0, st, _ => (st, [])
  | fuel+1, st, v =>
    let r1 := if st.slider.val ≠ v then slider_setValue fuel st v else (st, [])
    let r2 :=
      if r1.1.input.val ≠ v then input_setValue fuel r1.1 v else (r1.1, [])
    (r2.1, r1.2 ++ r2.2 ++ [(r2.1.slider.val : ℚ) / 100])

/-- `self._slider.setValue(v)`: clamp `v` to the slider's range; if the
clamped value differs from the current one, store it and let the
`valueChanged` connection invoke `notify_changed` with the new value. -/
def slider_setValue : Nat → State → ℤ → State × List ℚ
  | 0, st, _ => (st, [])
  | fuel+1, st, v =>
    let v2 := clampI st.slider.lo st.slider.hi v
    if v2 = st.slider.val then (st, [])
    else notify_changed fuel { st with slider := { st.slider with val := v2 } } v2

/-- `self._input.setValue(v)`, symmetric to the slider. -/
def input_setValue : Nat → State → ℤ → State × List ℚ
  | 0, st, _ => (st, [])
  | fuel+1, st, v =>
    let v2 := clampI st.input.lo st.input.hi v
    if v2 = st.input.val then (st, [])
    else notify_changed fuel { st with input := { st.input with val := v2 } } v2

end

/-- widget.py:645-647 — the `value` property getter,
`self._slider.value() / 100`. -/
def value (st : State) : ℚ := (st.slider.val : ℚ) / 100

/-- widget.py:649-654 — the `value` property setter: no-op when the new value
equals the current one, otherwise `setValue(int(value*100))` on both
controls. -/
def set_value (fuel : Nat) (st : State) (v : ℚ) : State × List ℚ :=
  if v = value st then (st, [])
  else
    let r1 := slider_setValue fuel st (pyInt (v * 100))
    let r2 := input_setValue fuel r1.1 (pyInt (v * 100))
    (r2.1, r1.2 ++ r2.2)

end StrengthWidget

namespace TextPromptWidget

/-- `TextPromptWidget` (widget.py:519-577): a multi-line and a single-line
text control, one of which is active according to `_line_count`. -/
structure State where
  line_count : ℕ
  multi_text : String
  single_text : String
deriving DecidableEq

/-- widget.py:566-568 — the `text` getter:
`self._multi.toPlainText() if self._line_count > 1 else self._single.text()`. -/
def text (st : State) : String :=
  if 1 < st.line_count then st.multi_text else st.single_text

/-- widget.py:570-577 — the `text` setter: `if value == self.text: return`,
otherwise write the active control's text; a real change of the underlying Qt
text widget emits `textChanged`, which `notify_text_changed` re-emits as
`text_changed` carrying `self.text` (widget.py:545, 549, 560-561). -/
def set_text (st : State) (value : String) : State × List String :=
  if value = text st then (st, [])
  else
    let st2 :=
      if 1 < st.line_count then { st with multi_text := value }
      else { st with single_text := value }
    (st2, [text st2])

end TextPromptWidget

namespace StyleSelectWidget

/-- `StyleSelectWidget` (widget.py:421-483): the held `Style` object
(identified by a number) and the combo box's current selection. -/
structure State where
  value : ℕ
  combo_sel : ℕ
deriving DecidableEq

/-- widget.py:479-483 — the `value` setter:
`if style != self._value: self._value = style;
self._combo.setCurrentText(style.name)`.  In the changing branch the combo's
`currentIndexChanged` fires `change_style` (widget.py:437, 466-470), which
finds `style == self._value` already and therefore emits nothing, so the
setter emits no `value_changed` in either branch. -/
def set_value (st : State) (style : ℕ) : State × List ℕ :=
  if style ≠ st.value then ({ value := style, combo_sel := style }, [])
  else (st, [])

end StyleSelectWidget

/-- The object a subscription is registered on or captured by: an external
model object or a jobs queue object (both identified by the object identity of
the model that owns them), or the widget itself. -/
inductive Owner
  | modelObj (id : ℕ)
  | jobsObj (id : ℕ)
  | selfWidget
deriving DecidableEq, Repr

/-- One entry of a widget's `_model_bindings` / `_connections` list
(a `Binding` or a raw `QMetaObject.Connection`): the object whose signal or
property notifier the subscription is registered on, the object the connected
handler references, and the entry's position in the list. -/
structure Sub where
  owner : Owner
  handlerRef : Owner
  slot : ℕ
deriving DecidableEq, Repr

/-- A subscription references an object if it is registered on its signal or
its handler captures it. -/
def Sub.refs (s : Sub) (o : Owner) : Prop := s.owner = o ∨ s.handlerRef = o

instance (s : Sub) (o : Owner) : Decidable (s.refs o) := by
  unfold Sub.refs; infer_instance

/-- Connection and disconnection events, in the order the widget setters
perform them. -/
inductive BEvent
  | disconnect (s : Sub)
  | connect (s : Sub)
deriving DecidableEq, Repr

/-- The slice of the external `Model` object the widgets of this file read:
its object identity, the contents of its `control` layer list, and its
`upscale.factor` property.  The `jobs` queue of model `m` carries the same
identity `m.id`. -/
structure Model where
  id : ℕ
  controls : List ℕ
  factor : ℚ
deriving DecidableEq, Repr

namespace QueueWidget

/-- `QueueWidget` keeps a single `count_changed` subscription on its `_jobs`
queue (widget.py:56). -/
structure State where
  jobsId : ℕ
deriving DecidableEq, Repr

def connection (j : ℕ) : Sub := ⟨.jobsObj j, .selfWidget, 0⟩

/-- widget.py:74-78 — the `jobs` setter: disconnect `count_changed` from the
old queue, store the new queue, connect `count_changed` on it. -/
def set_jobs (st : State) (j : ℕ) : State × List BEvent :=
  (⟨j⟩, [.disconnect (connection st.jobsId), .connect (connection j)])

end QueueWidget

namespace HistoryWidget

/-- widget.py:320-324 — the `_connections` list built for a jobs queue `j`:
`j.selection_changed`, the widget's own `itemSelectionChanged`, and
`j.job_finished`. -/
def connections (j : ℕ) : List Sub :=
  [⟨.jobsObj j, .selfWidget, 0⟩, ⟨.selfWidget, .selfWidget, 1⟩,
   ⟨.jobsObj j, .selfWidget, 2⟩]

structure BindState where
  jobsId : ℕ
  conns : List Sub
deriving DecidableEq, Repr

/-- widget.py:316-326 — the `jobs` setter: `Binding.disconnect_all` on the
old `_connections`, store the new queue, build the three new connections
(then `rebuild()` and `update_selection()`, which only refresh the item
view from the new queue's contents). -/
def set_jobs (st : BindState) (j : ℕ) : BindState × List BEvent :=
  (⟨j, connections j⟩,
   st.conns.map BEvent.disconnect ++ (connections j).map BEvent.connect)

end HistoryWidget

namespace ControlListWidget

/-- widget.py:265-268 — the `_model_connections` list for model `m`:
`m.control.added` and `m.control.removed`. -/
def model_connections (m : Model) : List Sub :=
  [⟨.modelObj m.id, .selfWidget, 0⟩, ⟨.modelObj m.id, .selfWidget, 1⟩]

structure State where
  model : Model
  controls : List ℕ
  conns : List Sub
deriving DecidableEq, Repr

/-- widget.py:256-268 — the `model` setter: if the model object changed,
disconnect `_model_connections`, remove every control widget, add one widget
per entry of the new model's `control` list, and connect `added`/`removed` on
the new model's control list. -/
def set_model (st : State) (m : Model) : State × List BEvent :=
  if st.model ≠ m then
    (⟨m, m.controls, model_connections m⟩,
     st.conns.map BEvent.disconnect ++ (model_connections m).map BEvent.connect)
  else (st, [])

end ControlListWidget

namespace GenerationWidget

/-- widget.py:789-800 — the `_model_bindings` list for model `m`: five
property bindings (`workspace`, `style`, `prompt`, `negative_prompt`,
`strength`), four signal connections (`progress_changed`, `error_changed`,
`has_error_changed`, `can_apply_result_changed`) on `m`, and the widget's own
`add_control_button.clicked` connected to `m.control.add` (a handler that
captures `m`). -/
def model_bindings (m : ℕ) : List Sub :=
  [⟨.modelObj m, .selfWidget, 0⟩, ⟨.modelObj m, .selfWidget, 1⟩,
   ⟨.modelObj m, .selfWidget, 2⟩, ⟨.modelObj m, .selfWidget, 3⟩,
   ⟨.modelObj m, .selfWidget, 4⟩, ⟨.modelObj m, .selfWidget, 5⟩,
   ⟨.modelObj m, .selfWidget, 6⟩, ⟨.modelObj m, .selfWidget, 7⟩,
   ⟨.modelObj m, .selfWidget, 8⟩, ⟨.selfWidget, .modelObj m, 9⟩]

structure State where
  model : Model
  bindings : List Sub
  control_list : ControlListWidget.State
  queue : QueueWidget.State
  history : HistoryWidget.BindState
deriving DecidableEq, Repr

/-- widget.py:784-803 — the `model` setter: guarded by
`if self._model != model`; on a change it disconnects all old
`_model_bindings`, stores the new model, builds the new binding list, then
re-targets `control_list`, `queue_button` and `history` at the new model and
its jobs queue. -/
def set_model (st : State) (m : Model) : State × List BEvent :=
  if st.model ≠ m then
    let rc := ControlListWidget.set_model st.control_list m
    let rq := QueueWidget.set_jobs st.queue m.id
    let rh := HistoryWidget.set_jobs st.history m.id
    ({ model := m, bindings := model_bindings m.id,
       control_list := rc.1, queue := rq.1, history := rh.1 },
     st.bindings.map BEvent.disconnect
       ++ (model_bindings m.id).map BEvent.connect ++ rc.2 ++ rq.2 ++ rh.2)
  else (st, [])

end GenerationWidget

namespace UpscaleWidget

/-- The upscale-factor subsystem of `UpscaleWidget` (widget.py:852-868):
`factor_slider` with range `100..400`, `factor_input` (a two-decimals
`QDoubleSpinBox`) with range `1.0..4.0`, and the bound model property
`model.upscale.factor` whose `factor_changed` notifier is connected to
`update_factor` (widget.py:929).  `targetUpdates` counts the
`update_target_extent()` calls (a pure display refresh). -/
structure FactorState where
  sliderVal : ℤ
  inputVal : ℚ
  modelFactor : ℚ
  targetUpdates : ℕ
deriving DecidableEq, Repr

mutual

/-- widget.py:967-969 `update_factor(value)`:
`factor_slider.setValue(int(value * 100))` then
`factor_input.setValue(value)`.  Each `setValue` that changes a control
synchronously fires the connected slot; the re-entry is modelled with fuel,
never exhausted on the runs the theorems are about. -/
def update_factor : Nat → FactorState → ℚ → FactorState
  | 0, st, _ => st
  | fuel+1, st, value =>
    let st1 := factor_slider_setValue fuel st (pyInt (value * 100))
    factor_input_setValue fuel st1 value

/-- `factor_slider.setValue(v)`: clamp to `100..400`; an actual change emits
`valueChanged`, connected to `change_factor_slider` (widget.py:859). -/
def factor_slider_setValue : Nat → FactorState → ℤ → FactorState
  | 0, st, _ => st
  | fuel+1, st, v =>
    let v2 := clampI 100 400 v
    if v2 = st.sliderVal then st
    else change_factor_slider fuel { st with sliderVal := v2 } v2

/-- `factor_input.setValue(q)`: round to the spin box's two decimals and
clamp to `1.0..4.0`; an actual change emits `valueChanged`, connected to
`change_factor` (widget.py:868). -/
def factor_input_setValue : Nat → FactorState → ℚ → FactorState
  | 0, st, _ => st
  | fuel+1, st, q =>
    let q2 := clampQ 1 4 (round2 q)
    if q2 = st.inputVal then st
    else change_factor fuel { st with inputVal := q2 } q2

/-- widget.py:977-986 `change_factor_slider(value)`: snap to a multiple of
50; if the slider is not on the snapped value yet, push it there, otherwise
write `value / 100` to the model factor, mirror it into `factor_input`, and
refresh the target extent. -/
def change_factor_slider : Nat → FactorState → ℤ → FactorState
  | 0, st, _ => st
  | fuel+1, st, value =>
    let v := pyRound ((value : ℚ) / 50) * 50
    if st.sliderVal ≠ v then factor_slider_setValue fuel st v
    else
      let value_float : ℚ := (v : ℚ) / 100
      let st1 := model_set_factor fuel st value_float
      let st2 := if st1.inputVal ≠ value_float
                 then factor_input_setValue fuel st1 value_float else st1
      { st2 with targetUpdates := st2.targetUpdates + 1 }

/-- widget.py:988-994 `change_factor(value)`: write the model factor, mirror
`round(value * 100)` into the slider under a `SignalBlocker` (no signal), and
refresh the target extent. -/
def change_factor : Nat → FactorState → ℚ → FactorState
  | 0, st, _ => st
  | fuel+1, st, value =>
    let st1 := model_set_factor fuel st value
    let value_int := pyRound (value * 100)
    let st2 := if st1.sliderVal ≠ value_int
               then { st1 with sliderVal := clampI 100 400 value_int }
               else st1
    { st2 with targetUpdates := st2.targetUpdates + 1 }

/-- Assignment to the observable property `model.upscale.factor`.  The
`properties` module is not part of the provided sources; per spec §4.1 an
observable property is a no-op on an equal value and otherwise stores the
value and notifies its listeners — here `update_factor`
(widget.py:929). -/
def model_set_factor : Nat → FactorState → ℚ → FactorState
  | 0, st, _ => st
  | fuel+1, st, q =>
    if q ≠ st.modelFactor then update_factor fuel { st with modelFactor := q } q
    else st

end

/-- widget.py:926-942 — the `_model_bindings` list for model `m`: the
`workspace` binding, the `upscaler` combo binding, the `factor_changed` and
`target_extent_changed` connections, the `use_diffusion` widget binding, the
`style` and `strength` bindings and the `progress_changed`, `error_changed`,
`has_error_changed` connections, all registered on `m` or its sub-objects. -/
def model_bindings (m : ℕ) : List Sub :=
  [⟨.modelObj m, .selfWidget, 0⟩, ⟨.modelObj m, .selfWidget, 1⟩,
   ⟨.modelObj m, .selfWidget, 2⟩, ⟨.modelObj m, .selfWidget, 3⟩,
   ⟨.modelObj m, .selfWidget, 4⟩, ⟨.modelObj m, .selfWidget, 5⟩,
   ⟨.modelObj m, .selfWidget, 6⟩, ⟨.modelObj m, .selfWidget, 7⟩,
   ⟨.modelObj m, .selfWidget, 8⟩, ⟨.modelObj m, .selfWidget, 9⟩]

structure State where
  model : Model
  bindings : List Sub
  queue : QueueWidget.State
  factor : FactorState
deriving DecidableEq, Repr

/-- widget.py:921-946 — the `model` setter: guarded by
`if self._model != model`; on a change it disconnects the old
`_model_bindings`, stores the new model, builds the new binding list
(connecting `factor_changed` to `update_factor` before any value is pushed),
re-targets the queue button, then calls `update_factor(model.upscale.factor)`
and `update_target_extent()` (and `update_progress()`, a progress-bar
refresh). -/
def set_model (fuel : Nat) (st : State) (m : Model) : State × List BEvent :=
  if st.model ≠ m then
    let rq := QueueWidget.set_jobs st.queue m.id
    let fs1 : FactorState := { st.factor with modelFactor := m.factor }
    let fs2 := update_factor fuel fs1 m.factor
    ({ model := m, bindings := model_bindings m.id, queue := rq.1,
       factor := { fs2 with targetUpdates := fs2.targetUpdates + 1 } },
     st.bindings.map BEvent.disconnect
       ++ (model_bindings m.id).map BEvent.connect ++ rq.2)
  else (st, [])

end UpscaleWidget

namespace LiveWidget

/-- widget.py:1106-1122 — the `_model_bindings` list for model `m`: six
property/widget bindings (`workspace`, `style`, `live.strength`, `live.seed`,
`prompt`, `negative_prompt`), five signal connections on `m`
(`live.is_active_changed`, `live.has_result_changed`, `error_changed`,
`has_error_changed`, `live.result_available`), and the widget's own
`add_control_button.clicked` and `random_seed_button.clicked` connected to
handlers capturing `m`. -/
def model_bindings (m : ℕ) : List Sub :=
  [⟨.modelObj m, .selfWidget, 0⟩, ⟨.modelObj m, .selfWidget, 1⟩,
   ⟨.modelObj m, .selfWidget, 2⟩, ⟨.modelObj m, .selfWidget, 3⟩,
   ⟨.modelObj m, .selfWidget, 4⟩, ⟨.modelObj m, .selfWidget, 5⟩,
   ⟨.modelObj m, .selfWidget, 6⟩, ⟨.modelObj m, .selfWidget, 7⟩,
   ⟨.selfWidget, .modelObj m, 8⟩, ⟨.selfWidget, .modelObj m, 9⟩,
   ⟨.modelObj m, .selfWidget, 10⟩, ⟨.modelObj m, .selfWidget, 11⟩,
   ⟨.modelObj m, .selfWidget, 12⟩]

structure State where
  model : Model
  bindings : List Sub
  control_list : ControlListWidget.State
deriving DecidableEq, Repr

/-- widget.py:1101-1123 — the `model` setter: guarded by
`if self._model != model`; on a change it disconnects the old
`_model_bindings`, stores the new model, builds the new binding list and
re-targets `control_list`. -/
def set_model (st : State) (m : Model) : State × List BEvent :=
  if st.model ≠ m then
    let rc := ControlListWidget.set_model st.control_list m
    ({ model := m, bindings := model_bindings m.id, control_list := rc.1 },
     st.bindings.map BEvent.disconnect
       ++ (model_bindings m.id).map BEvent.connect ++ rc.2)
  else (st, [])

end LiveWidget

/-- The connection states distinguished by the code
(widget.py:1192-1212, 1250-1254). -/
inductive ConnectionState
  | disconnected
  | connecting
  | connected
  | error
deriving DecidableEq, Repr

/-- The workspaces (widget.py:1256-1264 and the `WorkspaceSelectWidget`
cases). -/
inductive Workspace
  | generation
  | upscaling
  | live
deriving DecidableEq, Repr

namespace ImageDiffusionWidget

/-- The widgets in the dock's `QStackedWidget` (widget.py:1231-1235). -/
inductive StackPage
  | welcome
  | generation
  | upscaling
  | live
deriving DecidableEq, Repr

/-- widget.py:1247-1264 `ImageDiffusionWidget.update`: which widget of the
stack is made current, given whether a model exists for the active document
(with its workspace) and the connection state.  `none` means no branch made a
widget current. -/
def update (model : Option Workspace) (conn : ConnectionState) :
    Option StackPage :=
  if model = none ∨ conn = ConnectionState.disconnected ∨
      conn = ConnectionState.connecting ∨ conn = ConnectionState.error then
    some StackPage.welcome
  else
    match model with
    | some Workspace.generation => some StackPage.generation
    | some Workspace.upscaling => some StackPage.upscaling
    | some Workspace.live => some StackPage.live
    | none => some StackPage.welcome

end ImageDiffusionWidget

/-- Job lifecycle states; the code branches on `queued` and `finished`
(widget.py:81, 329).  The `jobs` module is not part of the provided sources;
the extra constructors stand for any non-finished state. -/
inductive JobState
  | queued
  | executing
  | finished
  | cancelled
deriving DecidableEq, Repr

/-- Job kinds; the code branches on `diffusion` (widget.py:329).  The `jobs`
module is not part of the provided sources; `other` stands for any
non-diffusion kind. -/
inductive JobKind
  | diffusion
  | other
deriving DecidableEq, Repr

/-- The fields of a `Job` that `HistoryWidget.add` reads (widget.py:328-352);
`bounds` is kept opaque, `results` as a list of image identifiers,
`timestamp` as the formatted time string. -/
structure Job where
  id : ℕ
  state : JobState
  kind : JobKind
  prompt : String
  bounds : ℕ
  timestamp : String
  results : List ℕ
deriving DecidableEq, Repr

namespace HistoryWidget

/-- An entry of the history `QListWidget`: either the header line of a job
group (showing time and prompt, storing the job id) or one result image
(storing the job id and the image's index in the job's results). -/
inductive Item
  | header (jobId : ℕ) (label : String)
  | image (jobId : ℕ) (index : ℕ)
deriving DecidableEq, Repr

/-- The item-model state `HistoryWidget.add` operates on: the list items and
the `_last_prompt` / `_last_bounds` fields (widget.py:296-297). -/
structure ItemState where
  items : List Item
  last_prompt : Option String
  last_bounds : Option ℕ
deriving DecidableEq, Repr

/-- widget.py:328-356 `HistoryWidget.add(job)`: return unchanged unless the
job is a finished diffusion job; otherwise start a new header group when the
prompt or bounds differ from the previous one, then append one item per
result image.  (The trailing scroll-bar adjustment only moves the view.) -/
def add (st : ItemState) (job : Job) : ItemState :=
  if job.state ≠ JobState.finished ∨ job.kind ≠ JobKind.diffusion then st
  else
    let st1 :=
      if st.last_prompt ≠ some job.prompt ∨ st.last_bounds ≠ some job.bounds
      then
        let prompt := if job.prompt ≠ "" then job.prompt else "<no prompt>"
        { items := st.items ++ [Item.header job.id (job.timestamp ++ " - " ++ prompt)],
          last_prompt := some job.prompt, last_bounds := some job.bounds }
      else st
    { st1 with items :=
        st1.items ++ (List.range job.results.length).map (Item.image job.id) }

end HistoryWidget

namespace Binding

/-- Modelled from the spec: the `Binding` class and its `disconnect_all`
helper live in `ai_diffusion.properties`, which is not among the provided
sources (widget.py:36 imports it; widget.py:787, 924, 1104, 259, 318 call
`Binding.disconnect_all` on lists typed
`list[QMetaObject.Connection | Binding]`).  Per spec §4.3 it calls
`disconnect()` on every element of the sequence — full `Binding` objects or
raw event-subscription handles alike — is safe on an empty sequence, and does
not short-circuit when one element's disconnect raises. -/
inductive DElem
  | binding (id : ℕ) (raises : Bool)
  | rawConn (id : ℕ) (raises : Bool)
deriving DecidableEq, Repr

def DElem.id : DElem → ℕ
  | .binding i _ => i
  | .rawConn i _ => i

def DElem.raises : DElem → Bool
  | .binding _ r => r
  | .rawConn _ r => r

/-- The outcome of one `disconnect()` call: the element's identity and
whether the call raised. -/
def DElem.disconnectResult (e : DElem) : ℕ × Bool := (e.id, e.raises)

/-- Modelled from the spec (§4.3): `disconnect_all` calls `disconnect()` on
every element in order, collecting each outcome and continuing past
failures. -/
def disconnect_all (xs : List DElem) : List (ℕ × Bool) :=
  xs.map DElem.disconnectResult

end Binding

theorem pyInt_intCast (k : ℤ) : pyInt (k : ℚ) = k := by
  simp [pyInt]

/-- C2: when a widget's model (or jobs) reference is assigned a different
object, the emitted teardown/setup trace consists of the disconnection of
every subscription of the old list followed by the new connections, and the
resulting subscription lists contain no subscription registered on or
capturing the previous object. -/
theorem c2_switch_leaves_no_residual (st : GenerationWidget.State) (m : Model)
    (hm : st.model ≠ m) (hid : st.model.id ≠ m.id)
    (sh : HistoryWidget.BindState) (j : ℕ) (hj : sh.jobsId ≠ j)
    (sq : QueueWidget.State) (j2 : ℕ) (hq : sq.jobsId ≠ j2) :
    ((GenerationWidget.set_model st m).2 =
        st.bindings.map BEvent.disconnect
          ++ (GenerationWidget.model_bindings m.id).map BEvent.connect
          ++ (ControlListWidget.set_model st.control_list m).2
          ++ (QueueWidget.set_jobs st.queue m.id).2
          ++ (HistoryWidget.set_jobs st.history m.id).2 ∧
      ∀ s ∈ (GenerationWidget.set_model st m).1.bindings,
        ¬ s.refs (Owner.modelObj st.model.id)) ∧
    ((HistoryWidget.set_jobs sh j).2 =
        sh.conns.map BEvent.disconnect
          ++ (HistoryWidget.connections j).map BEvent.connect ∧
      ∀ s ∈ (HistoryWidget.set_jobs sh j).1.conns,
        ¬ s.refs (Owner.jobsObj sh.jobsId)) ∧
    ((QueueWidget.set_jobs sq j2).2 =
        [BEvent.disconnect (QueueWidget.connection sq.jobsId),
         BEvent.connect (QueueWidget.connection j2)] ∧
      ¬ (QueueWidget.connection
          (QueueWidget.set_jobs sq j2).1.jobsId).refs
            (Owner.jobsObj sq.jobsId)) := by
  refine ⟨⟨?_, ?_⟩, ⟨?_, ?_⟩, ⟨?_, ?_⟩⟩
  · simp [GenerationWidget.set_model, hm]
  · intro s hs
    simp [GenerationWidget.set_model, hm, GenerationWidget.model_bindings] at hs
    rcases hs with h | h | h | h | h | h | h | h | h | h <;>
      simp [h, Sub.refs, hid, Ne.symm hid]
  · simp [HistoryWidget.set_jobs]
  · intro s hs
    simp [HistoryWidget.set_jobs, HistoryWidget.connections] at hs
    rcases hs with h | h | h <;> simp [h, Sub.refs, hj, Ne.symm hj]
  · simp [QueueWidget.set_jobs]
  · simp [QueueWidget.set_jobs, QueueWidget.connection, Sub.refs,
      hq, Ne.symm hq]

theorem c2_switch_leaves_no_residual_witness :
    ((GenerationWidget.set_model
        ⟨⟨0, [], 1⟩, GenerationWidget.model_bindings 0,
         ⟨⟨0, [], 1⟩, [], ControlListWidget.model_connections ⟨0, [], 1⟩⟩,
         ⟨0⟩, ⟨0, HistoryWidget.connections 0⟩⟩ ⟨1, [], 1⟩).2 =
        (GenerationWidget.model_bindings 0).map BEvent.disconnect
          ++ (GenerationWidget.model_bindings 1).map BEvent.connect
          ++ (ControlListWidget.set_model
               ⟨⟨0, [], 1⟩, [], ControlListWidget.model_connections ⟨0, [], 1⟩⟩
               ⟨1, [], 1⟩).2
          ++ (QueueWidget.set_jobs ⟨0⟩ 1).2
          ++ (HistoryWidget.set_jobs ⟨0, HistoryWidget.connections 0⟩ 1).2 ∧
      ∀ s ∈ (GenerationWidget.set_model
        ⟨⟨0, [], 1⟩, GenerationWidget.model_bindings 0,
         ⟨⟨0, [], 1⟩, [], ControlListWidget.model_connections ⟨0, [], 1⟩⟩,
         ⟨0⟩, ⟨0, HistoryWidget.connections 0⟩⟩ ⟨1, [], 1⟩).1.bindings,
        ¬ s.refs (Owner.modelObj 0)) ∧
    ((HistoryWidget.set_jobs ⟨0, HistoryWidget.connections 0⟩ 1).2 =
        (HistoryWidget.connections 0).map BEvent.disconnect
          ++ (HistoryWidget.connections 1).map BEvent.connect ∧
      ∀ s ∈ (HistoryWidget.set_jobs ⟨0, HistoryWidget.connections 0⟩ 1).1.conns,
        ¬ s.refs (Owner.jobsObj 0)) ∧
    ((QueueWidget.set_jobs ⟨0⟩ 1).2 =
        [BEvent.disconnect (QueueWidget.connection 0),
         BEvent.connect (QueueWidget.connection 1)] ∧
      ¬ (QueueWidget.connection
          (QueueWidget.set_jobs ⟨0⟩ 1).1.jobsId).refs (Owner.jobsObj 0)) :=
  c2_switch_leaves_no_residual
    ⟨⟨0, [], 1⟩, GenerationWidget.model_bindings 0,
     ⟨⟨0, [], 1⟩, [], ControlListWidget.model_connections ⟨0, [], 1⟩⟩,
     ⟨0⟩, ⟨0, HistoryWidget.connections 0⟩⟩ ⟨1, [], 1⟩
    (by decide) (by decide) ⟨0, HistoryWidget.connections 0⟩ 1 (by decide)
    ⟨0⟩ 1 (by decide)

/-- C7: assigning the model object a widget already holds is a no-op for
`GenerationWidget`, `UpscaleWidget`, `LiveWidget` and `ControlListWidget` —
no binding is disconnected or created and the state is unchanged. -/
theorem c7_same_model_is_noop (sg : GenerationWidget.State)
    (su : UpscaleWidget.State) (sl : LiveWidget.State)
    (sc : ControlListWidget.State) (fuel : ℕ) :
    GenerationWidget.set_model sg sg.model = (sg, []) ∧
    UpscaleWidget.set_model fuel su su.model = (su, []) ∧
    LiveWidget.set_model sl sl.model = (sl, []) ∧
    ControlListWidget.set_model sc sc.model = (sc, []) :=
  ⟨by simp [GenerationWidget.set_model],
   by simp [UpscaleWidget.set_model],
   by simp [LiveWidget.set_model],
   by simp [ControlListWidget.set_model]⟩

/-- C6: `Binding.disconnect_all` over a mixed sequence of `Binding` objects
and raw subscription handles invokes `disconnect` on every element, is safe
on the empty sequence, and keeps processing the elements that follow an
element whose disconnect raises. -/
theorem c6_disconnect_all_collects_and_continues
    (xs xs1 xs2 : List Binding.DElem) (e : Binding.DElem)
    (hsplit : xs = xs1 ++ e :: xs2) (hraise : e.raises = true) :
    Binding.disconnect_all [] = [] ∧
    (Binding.disconnect_all xs).length = xs.length ∧
    (∀ e2 ∈ xs, e2.disconnectResult ∈ Binding.disconnect_all xs) ∧
    (e.id, true) ∈ Binding.disconnect_all xs ∧
    ∀ e2 ∈ xs2, e2.disconnectResult ∈ Binding.disconnect_all xs := by
  subst hsplit
  refine ⟨rfl, by simp [Binding.disconnect_all], ?_, ?_, ?_⟩
  · intro e2 he2
    exact List.mem_map_of_mem _ he2
  · have h : e.disconnectResult ∈
        Binding.disconnect_all (xs1 ++ e :: xs2) :=
      List.mem_map_of_mem _ (by simp)
    simpa [Binding.DElem.disconnectResult, hraise] using h
  · intro e2 he2
    exact List.mem_map_of_mem _ (by simp [he2])

theorem c6_disconnect_all_collects_and_continues_witness :
    Binding.disconnect_all [] = [] ∧
    (Binding.disconnect_all
      [Binding.DElem.binding 0 true, Binding.DElem.rawConn 1 false]).length = 2 ∧
    (∀ e2 ∈ [Binding.DElem.binding 0 true, Binding.DElem.rawConn 1 false],
      e2.disconnectResult ∈ Binding.disconnect_all
        [Binding.DElem.binding 0 true, Binding.DElem.rawConn 1 false]) ∧
    ((0 : ℕ), true) ∈ Binding.disconnect_all
      [Binding.DElem.binding 0 true, Binding.DElem.rawConn 1 false] ∧
    ∀ e2 ∈ [Binding.DElem.rawConn 1 false],
      e2.disconnectResult ∈ Binding.disconnect_all
        [Binding.DElem.binding 0 true, Binding.DElem.rawConn 1 false] :=
  c6_disconnect_all_collects_and_continues
    [Binding.DElem.binding 0 true, Binding.DElem.rawConn 1 false]
    [] [Binding.DElem.rawConn 1 false] (Binding.DElem.binding 0 true)
    rfl rfl

/-- C9: `ImageDiffusionWidget.update` makes the welcome widget current
whenever no model exists for the active document or the connection state is
disconnected, connecting or error; and whenever it makes a workspace widget
current, a model exists (with that workspace) and the connection state is
connected. -/
theorem c9_welcome_guards_workspaces (model : Option Workspace)
    (conn : ConnectionState) :
    ((model = none ∨ conn = ConnectionState.disconnected ∨
        conn = ConnectionState.connecting ∨ conn = ConnectionState.error) →
      ImageDiffusionWidget.update model conn =
        some ImageDiffusionWidget.StackPage.welcome) ∧
    (∀ p : ImageDiffusionWidget.StackPage,
      p ≠ ImageDiffusionWidget.StackPage.welcome →
      ImageDiffusionWidget.update model conn = some p →
      model ≠ none ∧ conn = ConnectionState.connected) := by
  constructor
  · intro h
    unfold ImageDiffusionWidget.update
    rw [if_pos h]
  · intro p hp hup
    by_cases hcond : (model = none ∨ conn = ConnectionState.disconnected ∨
        conn = ConnectionState.connecting ∨ conn = ConnectionState.error)
    · unfold ImageDiffusionWidget.update at hup
      rw [if_pos hcond] at hup
      exact absurd (Option.some.inj hup).symm hp
    · push_neg at hcond
      obtain ⟨h1, h2, h3, h4⟩ := hcond
      exact ⟨h1, by cases conn <;> simp_all⟩

theorem c9_welcome_guards_workspaces_witness :
    ImageDiffusionWidget.update (some Workspace.generation)
        ConnectionState.error =
      some ImageDiffusionWidget.StackPage.welcome ∧
    ((some Workspace.generation : Option Workspace) ≠ none ∧
      ConnectionState.connected = ConnectionState.connected) :=
  ⟨(c9_welcome_guards_workspaces (some Workspace.generation)
      ConnectionState.error).1 (Or.inr (Or.inr (Or.inr rfl))),
   (c9_welcome_guards_workspaces (some Workspace.generation)
      ConnectionState.connected).2 ImageDiffusionWidget.StackPage.generation
     (by decide) (by decide)⟩

/-- C10: `HistoryWidget.add` leaves the item list, the stored last prompt and
the stored last bounds unchanged for every job that is not a finished
diffusion job; and whenever `add` changes the item list, the job is a
finished diffusion job. -/
theorem c10_add_only_finished_diffusion (st : HistoryWidget.ItemState)
    (job : Job)
    (h : job.state ≠ JobState.finished ∨ job.kind ≠ JobKind.diffusion) :
    HistoryWidget.add st job = st ∧
    ∀ (st2 : HistoryWidget.ItemState) (job2 : Job),
      (HistoryWidget.add st2 job2).items ≠ st2.items →
      job2.state = JobState.finished ∧ job2.kind = JobKind.diffusion := by
  constructor
  · simp [HistoryWidget.add, h]
  · intro st2 job2 hne
    by_cases h2 : job2.state ≠ JobState.finished ∨ job2.kind ≠ JobKind.diffusion
    · exact absurd (by simp [HistoryWidget.add, h2]) hne
    · push_neg at h2
      exact h2

theorem c10_add_only_finished_diffusion_witness :
    HistoryWidget.add ⟨[], none, none⟩
        ⟨0, JobState.queued, JobKind.diffusion, "p", 0, "12:00", [0]⟩ =
      ⟨[], none, none⟩ ∧
    ∀ (st2 : HistoryWidget.ItemState) (job2 : Job),
      (HistoryWidget.add st2 job2).items ≠ st2.items →
      job2.state = JobState.finished ∧ job2.kind = JobKind.diffusion :=
  c10_add_only_finished_diffusion ⟨[], none, none⟩
    ⟨0, JobState.queued, JobKind.diffusion, "p", 0, "12:00", [0]⟩
    (by simp)

theorem pyInt_of_nonneg {q : ℚ} (h : 0 ≤ q) : pyInt q = ⌊q⌋ := by
  simp [pyInt, h]

theorem pyRound_intCast (k : ℤ) : pyRound (k : ℚ) = k := by
  simp only [pyRound, Int.floor_intCast, sub_self]
  norm_num

theorem UpscaleWidget.model_set_factor_noop (n : ℕ) (hn : 1 ≤ n)
    (st : UpscaleWidget.FactorState) (q : ℚ) (h : q = st.modelFactor) :
    UpscaleWidget.model_set_factor n st q = st := by
  obtain ⟨m, rfl⟩ : ∃ m, n = m + 1 := ⟨n-1, by omega⟩
  simp [UpscaleWidget.model_set_factor, h]

theorem UpscaleWidget.change_factor_settled (n : ℕ) (hn : 2 ≤ n)
    (st : UpscaleWidget.FactorState) (q : ℚ)
    (hm : st.modelFactor = q) (hs : st.sliderVal = pyRound (q * 100)) :
    UpscaleWidget.change_factor n st q =
      { st with targetUpdates := st.targetUpdates + 1 } := by
  obtain ⟨m, rfl⟩ : ∃ m, n = m + 2 := ⟨n-2, by omega⟩
  simp only [UpscaleWidget.change_factor,
    UpscaleWidget.model_set_factor_noop (m+1) (by omega) st q hm.symm,
    hs, ne_eq, not_true_eq_false, ite_false, if_neg]

theorem UpscaleWidget.factor_input_setValue_settled (n : ℕ) (hn : 3 ≤ n)
    (st : UpscaleWidget.FactorState) (q : ℚ)
    (hm : st.modelFactor = q) (hs : st.sliderVal = pyRound (q * 100))
    (hc : clampQ 1 4 (round2 q) = q) :
    UpscaleWidget.factor_input_setValue n st q =
      if q = st.inputVal then st
      else { st with inputVal := q, targetUpdates := st.targetUpdates + 1 } := by
  obtain ⟨m, rfl⟩ : ∃ m, n = m + 3 := ⟨n-3, by omega⟩
  by_cases hq : q = st.inputVal
  · rw [if_pos hq]
    simp only [UpscaleWidget.factor_input_setValue, hc]
    exact if_pos hq
  · rw [if_neg hq]
    simp only [UpscaleWidget.factor_input_setValue, hc, if_neg hq]
    rw [UpscaleWidget.change_factor_settled (m+2) (by omega)
      { st with inputVal := q } q hm hs]

theorem UpscaleWidget.change_factor_slider_settled (n : ℕ) (hn : 4 ≤ n)
    (st : UpscaleWidget.FactorState) (N : ℤ)
    (hsnap : pyRound ((N : ℚ)/50) * 50 = N)
    (hs : st.sliderVal = N)
    (hm : st.modelFactor = (N : ℚ)/100)
    (hround : pyRound ((N : ℚ)/100 * 100) = N)
    (hc : clampQ 1 4 (round2 ((N : ℚ)/100)) = (N : ℚ)/100) :
    UpscaleWidget.change_factor_slider n st N =
      if (N : ℚ)/100 = st.inputVal
      then { st with targetUpdates := st.targetUpdates + 1 }
      else { st with
             inputVal := (N : ℚ)/100
             targetUpdates := st.targetUpdates + 1 + 1 } := by
  obtain ⟨m, rfl⟩ : ∃ m, n = m + 4 := ⟨n-4, by omega⟩
  simp only [UpscaleWidget.change_factor_slider, hsnap, hs, ne_eq,
    not_true_eq_false, ite_false,
    UpscaleWidget.model_set_factor_noop (m+3) (by omega) st ((N : ℚ)/100) hm.symm,
    UpscaleWidget.factor_input_setValue_settled (m+3) (by omega) st ((N : ℚ)/100)
      hm (by rw [hs, hround]) hc]
  by_cases hq : (N : ℚ)/100 = st.inputVal
  · simp [hq, hs]
  · have hq2 : ¬ (st.inputVal = (N : ℚ)/100) := fun h => hq h.symm
    simp [hq, hq2]

theorem UpscaleWidget.factor_slider_setValue_settled (n : ℕ) (hn : 5 ≤ n)
    (st : UpscaleWidget.FactorState) (N : ℤ)
    (hsnap : pyRound ((N : ℚ)/50) * 50 = N)
    (hclamp : clampI 100 400 N = N)
    (hm : st.modelFactor = (N : ℚ)/100)
    (hround : pyRound ((N : ℚ)/100 * 100) = N)
    (hc : clampQ 1 4 (round2 ((N : ℚ)/100)) = (N : ℚ)/100) :
    UpscaleWidget.factor_slider_setValue n st N =
      if N = st.sliderVal then st
      else if (N : ℚ)/100 = st.inputVal
      then { st with sliderVal := N, targetUpdates := st.targetUpdates + 1 }
      else { st with
             sliderVal := N
             inputVal := (N : ℚ)/100
             targetUpdates := st.targetUpdates + 1 + 1 } := by
  obtain ⟨m, rfl⟩ : ∃ m, n = m + 5 := ⟨n-5, by omega⟩
  by_cases hN : N = st.sliderVal
  · rw [if_pos hN]
    simp only [UpscaleWidget.factor_slider_setValue, hclamp]
    exact if_pos hN
  · rw [if_neg hN]
    simp only [UpscaleWidget.factor_slider_setValue, hclamp, if_neg hN]
    rw [UpscaleWidget.change_factor_slider_settled (m+4) (by omega)
      { st with sliderVal := N } N hsnap rfl hm hround hc]

theorem UpscaleWidget.update_factor_syncs (n : ℕ) (hn : 6 ≤ n)
    (st : UpscaleWidget.FactorState) (N : ℤ)
    (hsnap : pyRound ((N : ℚ)/50) * 50 = N)
    (hclamp : clampI 100 400 N = N)
    (hm : st.modelFactor = (N : ℚ)/100)
    (hround : pyRound ((N : ℚ)/100 * 100) = N)
    (hpyInt : pyInt ((N : ℚ)/100 * 100) = N)
    (hc : clampQ 1 4 (round2 ((N : ℚ)/100)) = (N : ℚ)/100) :
    (UpscaleWidget.update_factor n st ((N : ℚ)/100)).sliderVal = N ∧
    (UpscaleWidget.update_factor n st ((N : ℚ)/100)).inputVal = (N : ℚ)/100 ∧
    (UpscaleWidget.update_factor n st ((N : ℚ)/100)).modelFactor =
      (N : ℚ)/100 := by
  obtain ⟨m, rfl⟩ : ∃ m, n = m + 6 := ⟨n-6, by omega⟩
  simp only [UpscaleWidget.update_factor, hpyInt,
    UpscaleWidget.factor_slider_setValue_settled (m+5) (by omega) st N
      hsnap hclamp hm hround hc]
  by_cases hN : N = st.sliderVal <;> by_cases hq : (N : ℚ)/100 = st.inputVal
  · rw [if_pos hN,
      UpscaleWidget.factor_input_setValue_settled (m+5) (by omega) st
        ((N : ℚ)/100) hm (by rw [hround]; exact hN.symm) hc,
      if_pos hq]
    exact ⟨hN.symm, hq.symm, hm⟩
  · rw [if_pos hN,
      UpscaleWidget.factor_input_setValue_settled (m+5) (by omega) st
        ((N : ℚ)/100) hm (by rw [hround]; exact hN.symm) hc,
      if_neg hq]
    exact ⟨hN.symm, rfl, hm⟩
  · rw [if_neg hN, if_pos hq,
      UpscaleWidget.factor_input_setValue_settled (m+5) (by omega)
        { st with sliderVal := N, targetUpdates := st.targetUpdates + 1 }
        ((N : ℚ)/100) hm (by rw [hround]) hc,
      if_pos hq]
    exact ⟨rfl, hq.symm, hm⟩
  · rw [if_neg hN, if_neg hq,
      UpscaleWidget.factor_input_setValue_settled (m+5) (by omega)
        { st with
          sliderVal := N
          inputVal := (N : ℚ)/100
          targetUpdates := st.targetUpdates + 1 + 1 }
        ((N : ℚ)/100) hm (by rw [hround]) hc,
      if_pos rfl]
    exact ⟨rfl, rfl, hm⟩

/-- C5 counterexample: `end_spin` (widget.py:153-155) is a `QDoubleSpinBox`
with Qt's default two decimals, so initialising it with `control.end = 1/3`
stores `0.33`, not the identity-forward image of the source value; the
initial-sync equation fails for source values the target control cannot
represent. -/
theorem c5_end_spin_rounds_counterexample :
    ControlWidget.end_spin_init (1/3) = 33/100 ∧ (33/100 : ℚ) ≠ 1/3 := by
  constructor
  · norm_num [ControlWidget.end_spin_init, round2, pyRound, clampQ]
  · norm_num

/-- C5 (amended): immediately after the bindings are constructed, the target
widgets hold the forward conversion of the source properties' current values:
`ControlWidget.__init__` initialises `strength_spin` to `int(strength * 100)`
— the strength binding's forward conversion — and `end_spin` to
`control.end` (identity forward, for the two-decimal values the spin box
represents), and `UpscaleWidget`'s model setter ends with
`factor_slider = int(factor * 100)` and `factor_input = factor` for the
factor values the upscale controls represent (whole multiples of `0.5` in
`[1, 4]`), before any subsequent change notification. -/
theorem c5_initial_sync (s : ℚ) (hs0 : 0 ≤ s) (hs1 : s ≤ 1)
    (k : ℤ) (hk0 : 0 ≤ k) (hk1 : k ≤ 100)
    (fuel : ℕ) (hfuel : 6 ≤ fuel)
    (st : UpscaleWidget.State) (m : Model) (hm : st.model ≠ m)
    (j : ℤ) (hj2 : 2 ≤ j) (hj8 : j ≤ 8) (hfac : m.factor = (j : ℚ)/2) :
    ControlWidget.strength_spin_init s = pyInt (s * 100) ∧
    ControlWidget.end_spin_init ((k : ℚ)/100) = (k : ℚ)/100 ∧
    ((UpscaleWidget.set_model fuel st m).1.factor.sliderVal =
        pyInt (m.factor * 100) ∧
      (UpscaleWidget.set_model fuel st m).1.factor.inputVal = m.factor ∧
      (UpscaleWidget.set_model fuel st m).1.factor.modelFactor = m.factor) := by
  refine ⟨?_, ?_, ?_⟩
  · have hmul : (0:ℚ) ≤ s * 100 := by positivity
    have hf0 : (0:ℤ) ≤ ⌊s * 100⌋ := by positivity
    have hf1 : ⌊s * 100⌋ ≤ 100 := by
      have h := Int.floor_le_floor (α := ℚ) (show s * 100 ≤ 100 by nlinarith)
      simpa using h
    simp only [ControlWidget.strength_spin_init, pyInt_of_nonneg hmul, clampI]
    omega
  · have h1 : ((k : ℚ)/100) * 100 = (k : ℚ) := by field_simp
    have h2 : round2 ((k : ℚ)/100) = (k : ℚ)/100 := by
      rw [round2, h1, pyRound_intCast]
    have hge : (0:ℚ) ≤ (k : ℚ)/100 :=
      div_nonneg (by exact_mod_cast hk0) (by norm_num)
    have hle : (k : ℚ)/100 ≤ 1 := by
      rw [div_le_one (by norm_num)]
      exact_mod_cast hk1
    simp only [ControlWidget.end_spin_init, h2, clampQ]
    rw [min_eq_right hle, max_eq_right hge]
  · have hcast : (((50*j : ℤ) : ℚ))/50 = (j : ℚ) := by push_cast; ring
    have hcast2 : (((50*j : ℤ) : ℚ))/100 * 100 = ((50*j : ℤ) : ℚ) := by
      field_simp
    have hNf : (((50*j : ℤ) : ℚ))/100 = (j : ℚ)/2 := by push_cast; ring
    have hfac2 : m.factor = (((50*j : ℤ) : ℚ))/100 := by rw [hfac, hNf]
    have hsnap : pyRound (((50*j : ℤ) : ℚ)/50) * 50 = 50*j := by
      rw [hcast, pyRound_intCast]; ring
    have hclamp : clampI 100 400 (50*j) = 50*j := by
      simp only [clampI]; omega
    have hround : pyRound (((50*j : ℤ) : ℚ)/100 * 100) = 50*j := by
      rw [hcast2, pyRound_intCast]
    have hpyInt : pyInt (((50*j : ℤ) : ℚ)/100 * 100) = 50*j := by
      rw [hcast2, pyInt_intCast]
    have hc : clampQ 1 4 (round2 (((50*j : ℤ) : ℚ)/100)) =
        ((50*j : ℤ) : ℚ)/100 := by
      have h2 : round2 (((50*j : ℤ) : ℚ)/100) = ((50*j : ℤ) : ℚ)/100 := by
        rw [round2, hcast2, pyRound_intCast]
      have hge : (1:ℚ) ≤ ((50*j : ℤ) : ℚ)/100 := by
        rw [hNf, le_div_iff₀ (by norm_num : (0:ℚ) < 2)]
        exact_mod_cast by omega
      have hle : ((50*j : ℤ) : ℚ)/100 ≤ 4 := by
        rw [hNf, div_le_iff₀ (by norm_num : (0:ℚ) < 2)]
        exact_mod_cast by omega
      rw [h2]
      simp only [clampQ]
      rw [min_eq_right hle, max_eq_right (by linarith)]
    have hsync := UpscaleWidget.update_factor_syncs fuel hfuel
      { st.factor with modelFactor := (((50*j : ℤ) : ℚ))/100 } (50*j)
      hsnap hclamp rfl hround hpyInt hc
    simp only [UpscaleWidget.set_model, if_pos hm, hfac2]
    exact ⟨by rw [hpyInt]; exact hsync.1, hsync.2.1, hsync.2.2⟩

theorem c5_initial_sync_witness :
    ControlWidget.strength_spin_init (37/100) = pyInt ((37:ℚ)/100 * 100) ∧
    ControlWidget.end_spin_init (((50:ℤ) : ℚ)/100) = ((50:ℤ) : ℚ)/100 ∧
    ((UpscaleWidget.set_model 6
        ⟨⟨0, [], 1⟩, UpscaleWidget.model_bindings 0, ⟨0⟩,
         ⟨100, 1, 1, 0⟩⟩ ⟨1, [], (5:ℚ)/2⟩).1.factor.sliderVal =
        pyInt ((⟨1, [], (5:ℚ)/2⟩ : Model).factor * 100) ∧
      (UpscaleWidget.set_model 6
        ⟨⟨0, [], 1⟩, UpscaleWidget.model_bindings 0, ⟨0⟩,
         ⟨100, 1, 1, 0⟩⟩ ⟨1, [], (5:ℚ)/2⟩).1.factor.inputVal =
        (⟨1, [], (5:ℚ)/2⟩ : Model).factor ∧
      (UpscaleWidget.set_model 6
        ⟨⟨0, [], 1⟩, UpscaleWidget.model_bindings 0, ⟨0⟩,
         ⟨100, 1, 1, 0⟩⟩ ⟨1, [], (5:ℚ)/2⟩).1.factor.modelFactor =
        (⟨1, [], (5:ℚ)/2⟩ : Model).factor) :=
  c5_initial_sync (37/100) (by norm_num) (by norm_num) 50 (by norm_num)
    (by norm_num) 6 (by norm_num)
    ⟨⟨0, [], 1⟩, UpscaleWidget.model_bindings 0, ⟨0⟩, ⟨100, 1, 1, 0⟩⟩
    ⟨1, [], (5:ℚ)/2⟩ (by simp) 5 (by norm_num) (by norm_num) (by norm_num)

theorem StrengthWidget.notify_changed_fixed (n : ℕ) (hn : 1 ≤ n)
    (st : StrengthWidget.State) (v : ℤ)
    (hs : st.slider.val = v) (hinp : st.input.val = v) :
    StrengthWidget.notify_changed n st v = (st, [(v : ℚ)/100]) := by
  obtain ⟨m, rfl⟩ : ∃ m, n = m + 1 := ⟨n-1, by omega⟩
  simp [StrengthWidget.notify_changed, hs, hinp]

theorem StrengthWidget.input_setValue_changed (n : ℕ) (hn : 2 ≤ n)
    (st : StrengthWidget.State) (v : ℤ)
    (hs : st.slider.val = v) (hinp : ¬ st.input.val = v)
    (hc : clampI st.input.lo st.input.hi v = v) :
    StrengthWidget.input_setValue n st v =
      ({ st with input := { st.input with val := v } }, [(v : ℚ)/100]) := by
  obtain ⟨m, rfl⟩ : ∃ m, n = m + 2 := ⟨n-2, by omega⟩
  have h2 : ¬ (v = st.input.val) := fun h => hinp h.symm
  simp only [StrengthWidget.input_setValue, hc, if_neg h2]
  exact StrengthWidget.notify_changed_fixed (m+1) (by omega) _ v hs rfl

theorem StrengthWidget.notify_changed_slider_ok (n : ℕ) (hn : 3 ≤ n)
    (st : StrengthWidget.State) (v : ℤ)
    (hs : st.slider.val = v)
    (hc : clampI st.input.lo st.input.hi v = v) :
    StrengthWidget.notify_changed n st v =
      (if st.input.val = v then (st, [(v : ℚ)/100])
       else ({ st with input := { st.input with val := v } },
             [(v : ℚ)/100, (v : ℚ)/100])) := by
  by_cases hinp : st.input.val = v
  · rw [StrengthWidget.notify_changed_fixed n (by omega) st v hs hinp,
      if_pos hinp]
  · obtain ⟨m, rfl⟩ : ∃ m, n = m + 3 := ⟨n-3, by omega⟩
    rw [if_neg hinp]
    simp only [StrengthWidget.notify_changed, ne_eq, hs, not_true_eq_false,
      ite_false, hinp, not_false_eq_true, ite_true,
      StrengthWidget.input_setValue_changed (m+2) (by omega) st v hs hinp hc]
    simp [hs]

theorem StrengthWidget.slider_setValue_changed (n : ℕ) (hn : 4 ≤ n)
    (st : StrengthWidget.State) (v : ℤ)
    (hs : ¬ st.slider.val = v)
    (hcs : clampI st.slider.lo st.slider.hi v = v)
    (hci : clampI st.input.lo st.input.hi v = v) :
    StrengthWidget.slider_setValue n st v =
      (if st.input.val = v
       then ({ st with slider := { st.slider with val := v } }, [(v : ℚ)/100])
       else ({ slider := { st.slider with val := v },
               input := { st.input with val := v } },
             [(v : ℚ)/100, (v : ℚ)/100])) := by
  obtain ⟨m, rfl⟩ : ∃ m, n = m + 4 := ⟨n-4, by omega⟩
  have h2 : ¬ (v = st.slider.val) := fun h => hs h.symm
  simp only [StrengthWidget.slider_setValue, hcs, if_neg h2]
  rw [StrengthWidget.notify_changed_slider_ok (m+3) (by omega)
    { st with slider := { st.slider with val := v } } v rfl hci]

/-- C8 counterexample: with the construction `StrengthWidget(slider_range=(20,
50))` used by `UpscaleWidget` (widget.py:883), the slider at `35` and the spin
input just set to `10` (a value its own range `1..100` admits but the slider's
does not), `notify_changed(10)` terminates with the slider clamped at `20`
while the spin input holds `10` — the two controls are not equal. -/
theorem c8_slider_input_unequal_counterexample :
    (StrengthWidget.notify_changed 100 ⟨⟨20,50,35⟩, ⟨1,100,10⟩⟩ 10).1.slider.val = 20 ∧
    (StrengthWidget.notify_changed 100 ⟨⟨20,50,35⟩, ⟨1,100,10⟩⟩ 10).1.input.val = 10 ∧
    (20 : ℤ) ≠ 10 := by
  refine ⟨?_, ?_, by decide⟩ <;>
    simp [StrengthWidget.notify_changed, StrengthWidget.slider_setValue,
      StrengthWidget.input_setValue, clampI]

/-- C8 (amended): after `StrengthWidget.notify_changed` processes a value
change coming from either control, **provided the value lies within both the
slider's and the spin input's ranges**, the slider's value and the spin
input's value are equal (both hold the value), and every `value_changed`
emission of the run carries the slider's value divided by 100. -/
theorem c8_notify_changed_syncs (n : ℕ) (hn : 5 ≤ n)
    (st : StrengthWidget.State) (v : ℤ)
    (h1 : st.slider.lo ≤ v) (h2 : v ≤ st.slider.hi)
    (h3 : st.input.lo ≤ v) (h4 : v ≤ st.input.hi) :
    (StrengthWidget.notify_changed n st v).1.slider.val = v ∧
    (StrengthWidget.notify_changed n st v).1.input.val = v ∧
    ∀ e ∈ (StrengthWidget.notify_changed n st v).2, e = (v : ℚ)/100 := by
  have hcs : clampI st.slider.lo st.slider.hi v = v := by
    simp only [clampI]; omega
  have hci : clampI st.input.lo st.input.hi v = v := by
    simp only [clampI]; omega
  by_cases hs : st.slider.val = v
  · rw [StrengthWidget.notify_changed_slider_ok n (by omega) st v hs hci]
    by_cases hinp : st.input.val = v <;> simp [hinp, hs]
  · obtain ⟨m, rfl⟩ : ∃ m, n = m + 5 := ⟨n-5, by omega⟩
    simp only [StrengthWidget.notify_changed, ne_eq, hs, not_false_eq_true,
      ite_true, StrengthWidget.slider_setValue_changed (m+4) (by omega) st v hs hcs hci]
    by_cases hinp : st.input.val = v <;> simp [hinp]

theorem c8_notify_changed_syncs_witness :
    (StrengthWidget.notify_changed 5 ⟨⟨1,100,35⟩, ⟨1,100,10⟩⟩ 10).1.slider.val = 10 ∧
    (StrengthWidget.notify_changed 5 ⟨⟨1,100,35⟩, ⟨1,100,10⟩⟩ 10).1.input.val = 10 ∧
    ∀ e ∈ (StrengthWidget.notify_changed 5 ⟨⟨1,100,35⟩, ⟨1,100,10⟩⟩ 10).2,
      e = ((10 : ℤ) : ℚ)/100 :=
  c8_notify_changed_syncs 5 (by norm_num) ⟨⟨1,100,35⟩, ⟨1,100,10⟩⟩ 10
    (by norm_num) (by norm_num) (by norm_num) (by norm_num)

/-- C4: assigning to `TextPromptWidget.text`, `StrengthWidget.value` or
`StyleSelectWidget.value` a value equal to the one the property currently
holds is a no-op: the state is unchanged and no change-signal listener is
invoked (the returned emission list is empty). -/
theorem c4_equal_assignment_is_noop (stT : TextPromptWidget.State)
    (stS : StrengthWidget.State) (stY : StyleSelectWidget.State) (fuel : ℕ) :
    TextPromptWidget.set_text stT (TextPromptWidget.text stT) = (stT, []) ∧
    StrengthWidget.set_value fuel stS (StrengthWidget.value stS) = (stS, []) ∧
    StyleSelectWidget.set_value stY stY.value = (stY, []) :=
  ⟨by simp [TextPromptWidget.set_text],
   by simp [StrengthWidget.set_value],
   by simp [StyleSelectWidget.set_value]⟩

/-- C1 counterexample: on the in-domain strength `x = 3/8 = 0.375` the code's
conversion (widget.py:151, `int(x * 100)`) produces spin value `37`, while the
conversion the claim states, `round(x * 100)`, produces `38`; so the binding
does not convert with `forward = round(x*100)`. -/
theorem c1_forward_is_not_round :
    ControlWidget.strength_to_spin (3/8) = 37 ∧
    ControlWidget.claimed_forward (3/8) = 38 := by
  refine ⟨?_, ?_⟩ <;>
    norm_num [ControlWidget.strength_to_spin, ControlWidget.claimed_forward,
      pyInt, pyRound, clampI]

/-- C1 (amended): binding the strength property (a float in `[0,1]`) to the
percentage spin control converts with `forward = int(x*100)` — truncation,
which on the domain is the floor of `x*100` — and `inverse = x/100`; setting
the model's strength to `0.37` makes the spin control's value `37`, and
setting the spin control to `82` makes the model's strength `0.82`. -/
theorem c1_strength_binding_conversion (x : ℚ) (hx0 : 0 ≤ x) (hx1 : x ≤ 1) :
    ControlWidget.strength_to_spin x = ⌊x * 100⌋ ∧
    ControlWidget.strength_to_spin (37/100) = 37 ∧
    ControlWidget.spin_to_strength 82 = 82/100 := by
  have hf0 : (0:ℤ) ≤ ⌊x * 100⌋ := by positivity
  have hf1 : ⌊x * 100⌋ ≤ 100 := by
    have : ⌊x * 100⌋ ≤ ⌊(100:ℚ)⌋ := by
      apply Int.floor_le_floor
      nlinarith
    simpa using this
  refine ⟨?_, ?_, ?_⟩
  · have hx100 : 0 ≤ x * 100 := by positivity
    simp only [ControlWidget.strength_to_spin, pyInt, if_pos hx100, clampI]
    omega
  · norm_num [ControlWidget.strength_to_spin, pyInt, clampI]
  · norm_num [ControlWidget.spin_to_strength]

theorem c1_strength_binding_conversion_witness :
    ControlWidget.strength_to_spin (37/100) = ⌊(37:ℚ)/100 * 100⌋ ∧
    ControlWidget.strength_to_spin (37/100) = 37 ∧
    ControlWidget.spin_to_strength 82 = 82/100 :=
  c1_strength_binding_conversion (37/100) (by norm_num) (by norm_num)

/-- C3 counterexample: for `x = 1/200 = 0.005`, a value of the strength
property's domain `[0,1]`, the code's conversion pair gives
`inverse(forward(x)) = int(0.005*100)/100 = 0 ≠ x`, so the round-trip law
does not hold for every `x` in the domain. -/
theorem c3_round_trip_counterexample :
    ControlWidget.spin_to_strength (ControlWidget.strength_to_spin (1/200)) = 0 ∧
    (0 : ℚ) ≠ 1/200 := by
  refine ⟨?_, by norm_num⟩
  norm_num [ControlWidget.strength_to_spin, ControlWidget.spin_to_strength,
    pyInt, clampI]

/-- C3 (amended): the round-trip law `inverse(forward(x)) = x` for the
strength binding's conversion pair holds exactly on the values the integer
percentage control can represent — every `x = k/100` with `k` an integer,
`0 ≤ k ≤ 100` — rather than on every float in `[0,1]`. -/
theorem c3_round_trip_on_percent_grid (k : ℤ) (h0 : 0 ≤ k) (h1 : k ≤ 100) :
    ControlWidget.spin_to_strength (ControlWidget.strength_to_spin ((k : ℚ) / 100)) =
      (k : ℚ) / 100 := by
  have hmul : ((k : ℚ) / 100) * 100 = (k : ℚ) := by field_simp
  simp only [ControlWidget.strength_to_spin, ControlWidget.spin_to_strength,
    hmul, pyInt_intCast, clampI]
  have hk : max 0 (min 100 k) = k := by omega
  rw [hk]

theorem c3_round_trip_on_percent_grid_witness :
    ControlWidget.spin_to_strength (ControlWidget.strength_to_spin ((37 : ℤ) / 100)) =
      ((37 : ℤ) : ℚ) / 100 :=
  c3_round_trip_on_percent_grid 37 (by norm_num) (by norm_num)

end AiDiffusion
